import Mathlib

/-!
Verification of the easyvk Vulkan compute wrapper (src/src/easyvk.cpp,
src/src/easyvk.h). Pure fragments of the C++ source are embedded as
executable Lean functions: machine integers (uint32, VkDeviceSize = uint64)
become Nat with explicit wraparound where the source can overflow, driver
calls become boolean oracles, and GPU handles become flags with explicit
creation/destruction traces.
-/

/-- std::numeric_limits of VkDeviceSize (uint64). -/
def UINT64_MAX : Nat := 2 ^ 64 - 1

/-- The SPIR-V magic number checked by isValidSPIRV (easyvk.cpp line 155). -/
def SPIRV_MAGIC : Nat := 0x07230203

/-- alignDown from easyvk.cpp lines 124-127. -/
def alignDown (value alignment : Nat) : Nat :=
  if alignment = 0 ∨ alignment = 1 then value
  else value / alignment * alignment

/-- alignUp from easyvk.cpp lines 129-138, including the explicit uint64
overflow check that saturates to UINT64_MAX. -/
def alignUp (value alignment : Nat) : Nat :=
  if alignment = 0 ∨ alignment = 1 then value
  else if value > UINT64_MAX - alignment + 1 then UINT64_MAX
  else (value + alignment - 1) / alignment * alignment

/-- The aligned mapping bounds computed identically by Buffer::mapWrite
(easyvk.cpp lines 1170-1174) and Buffer::mapRead (lines 1216-1219):
alignedOff = alignDown(offset, atom), alignedLen = alignUp(len + (offset -
alignedOff), atom), then alignedLen is clamped in place so that
alignedOff + alignedLen does not exceed the buffer size. -/
def mapAligned (size atom offset len : Nat) : Nat × Nat :=
  let alignedOff := alignDown offset atom
  let alignedLen := alignUp (len + (offset - alignedOff)) atom
  (alignedOff, if alignedOff + alignedLen > size then size - alignedOff else alignedLen)

/-- isValidSPIRV from easyvk.cpp lines 152-157: non-empty, at least 5 words,
first word equal to the SPIR-V magic number. -/
def isValidSPIRV (code : List Nat) : Bool :=
  if code.isEmpty then false
  else if code.length < 5 then false
  else if code.headD 0 ≠ SPIRV_MAGIC then false
  else true

/-- The loop body of Device::selectMemory (easyvk.cpp lines 883-888): scan the
memory-type table from index i upward, returning the first index whose bit is
set in memoryTypeBits (computed as `memoryTypeBits & (1u << i)` on uint32,
hence the modulus) and whose propertyFlags contain every bit of flags. -/
def selectMemoryGo (memoryTypeBits flags : Nat) : List Nat → Nat → Option Nat
  | [], _ => none
  | p :: rest, i =>
    if memoryTypeBits &&& ((1 <<< i) % 2 ^ 32) ≠ 0 ∧ flags &&& p = flags then some i
    else selectMemoryGo memoryTypeBits flags rest (i + 1)

/-- Device::selectMemory (easyvk.cpp lines 879-895) over the device's
memory-type table (the propertyFlags of each memory type, in index order).
`none` models the "Failed to find suitable memory type" error. -/
def selectMemory (memoryTypes : List Nat) (memoryTypeBits flags : Nat) : Option Nat :=
  selectMemoryGo memoryTypeBits flags memoryTypes 0

/-- Index i of the memory-type table is suitable for (bits, flags): its bit is
set in bits and its property flags are a superset of flags. -/
def suitableMemoryType (memoryTypes : List Nat) (bits flags i : Nat) : Prop :=
  i < memoryTypes.length ∧ bits.testBit i = true ∧ flags &&& memoryTypes.getD i 0 = flags

instance (memoryTypes : List Nat) (bits flags i : Nat) :
    Decidable (suitableMemoryType memoryTypes bits flags i) := by
  unfold suitableMemoryType; infer_instance

/-- HostAccess from easyvk.h line 90. -/
inductive HostAccess where
  | noAccess
  | write
  | read
  | readWrite
deriving DecidableEq

/-- VK_MEMORY_PROPERTY_DEVICE_LOCAL_BIT. -/
def DEVICE_LOCAL_BIT : Nat := 0x1
/-- VK_MEMORY_PROPERTY_HOST_VISIBLE_BIT. -/
def HOST_VISIBLE_BIT : Nat := 0x2
/-- VK_MEMORY_PROPERTY_HOST_COHERENT_BIT. -/
def HOST_COHERENT_BIT : Nat := 0x4
/-- VK_MEMORY_PROPERTY_HOST_CACHED_BIT. -/
def HOST_CACHED_BIT : Nat := 0x8

/-- BufferCreateInfo::validate (easyvk.cpp lines 943-953): the error message
when the requested size is rejected, none when it passes. -/
def bufferValidateMsg (sizeBytes : Nat) : Option String :=
  if sizeBytes = 0 then some "Buffer size cannot be zero"
  else if sizeBytes > UINT64_MAX / 2 then some "Buffer size too large"
  else none

/-- Outcome of Buffer construction: the error message if it failed, the
resolved memory property flags if it succeeded, and the property-flag sets
passed to createVkBuffer, in call order. -/
structure BufferBuildResult where
  err : Option String
  memFlags : Option Nat
  attempts : List Nat
deriving DecidableEq

/-- Buffer::Buffer (easyvk.cpp lines 1037-1102): validate the create info,
check the device, derive the requested memory property flags from the
host-access mode, then attempt createVkBuffer with the fallback chain for
host-accessible buffers. `alloc f` tells whether createVkBuffer succeeds
when asked for property flags f. -/
def bufferConstruct (size : Nat) (host : HostAccess) (devValid : Bool)
    (alloc : Nat → Bool) : BufferBuildResult :=
  match bufferValidateMsg size with
  | some e => ⟨some e, none, []⟩
  | none =>
    if ¬ devValid then ⟨some "Device is not valid", none, []⟩
    else
      let memFlags0 := if host = HostAccess.noAccess then DEVICE_LOCAL_BIT
        else HOST_VISIBLE_BIT ||| HOST_COHERENT_BIT
      if alloc memFlags0 then ⟨none, some memFlags0, [memFlags0]⟩
      else if host ≠ HostAccess.noAccess ∧ memFlags0 &&& HOST_COHERENT_BIT ≠ 0 then
        let memFlags1 := HOST_VISIBLE_BIT ||| HOST_CACHED_BIT
        if alloc memFlags1 then ⟨none, some memFlags1, [memFlags0, memFlags1]⟩
        else
          let memFlags2 := HOST_VISIBLE_BIT
          if alloc memFlags2 then ⟨none, some memFlags2, [memFlags0, memFlags1, memFlags2]⟩
          else ⟨some "Failed to create buffer with any memory type", none,
            [memFlags0, memFlags1, memFlags2]⟩
      else ⟨some "Failed to create buffer", none, [memFlags0]⟩

/-- Try a list of property-flag sets in order; return the first that the
allocator accepts and the prefix of sets actually attempted. This follows the
spec's description of the fallback chain, for comparison with
bufferConstruct. -/
def firstSucceeding (alloc : Nat → Bool) : List Nat → Option Nat × List Nat
  | [] => (none, [])
  | f :: rest =>
    if alloc f then (some f, [f])
    else
      let r := firstSucceeding alloc rest
      (r.1, f :: r.2)

/-- The subset of VkPhysicalDeviceLimits read by the embedded code. -/
structure DeviceLimits where
  maxComputeWorkGroupSizeX : Nat
  maxComputeWorkGroupSizeY : Nat
  maxComputeWorkGroupSizeZ : Nat
  maxComputeWorkGroupInvocations : Nat
  maxPushConstantsSize : Nat
  maxComputeWorkGroupCountX : Nat
  maxComputeWorkGroupCountY : Nat
  maxComputeWorkGroupCountZ : Nat
  minUniformBufferOffsetAlignment : Nat
  minStorageBufferOffsetAlignment : Nat
  nonCoherentAtomSize : Nat
deriving DecidableEq

/-- The two descriptor types ComputeBindings creates (easyvk.cpp 1584-1636). -/
inductive DescriptorType where
  | uniformBuffer
  | storageBuffer
deriving DecidableEq

/-- One ComputeBindings entry: set index, binding index, descriptor type, and
the buffer offsets of its VkDescriptorBufferInfo list. -/
structure BindingEntry where
  set : Nat
  binding : Nat
  type : DescriptorType
  bufferOffsets : List Nat
deriving DecidableEq

/-- ComputeBindings::validate (easyvk.cpp lines 1638-1657): each buffer offset
must be a multiple of the type-appropriate minimum alignment (when that
alignment is nonzero). -/
def bindingsValidate (lim : DeviceLimits) (entries : List BindingEntry) : Bool :=
  entries.all fun e =>
    let requiredAlignment :=
      match e.type with
      | DescriptorType.uniformBuffer => lim.minUniformBufferOffsetAlignment
      | DescriptorType.storageBuffer => lim.minStorageBufferOffsetAlignment
    e.bufferOffsets.all fun off =>
      ¬ (requiredAlignment > 0 ∧ off % requiredAlignment ≠ 0)

/-- ComputeProgramCreateInfo, the fields its validate and the constructor
read. spirv is the (possibly null) pointer to the SPIR-V word vector. -/
structure ComputeProgramCreateInfo where
  spirv : Option (List Nat)
  localX : Nat
  localY : Nat
  localZ : Nat
  pushConstantBytes : Nat
  bindings : List BindingEntry
deriving DecidableEq

/-- ComputeProgramCreateInfo::validate (easyvk.cpp lines 1659-1696): SPIR-V
pointer non-null and non-empty, workgroup dimensions nonzero and within the
per-axis limits, total invocations (computed in uint64) within the limit,
push-constant size 4-byte aligned and within the limit when nonzero, and the
binding offsets aligned. -/
def cpciValidate (lim : DeviceLimits) (info : ComputeProgramCreateInfo) : Bool :=
  match info.spirv with
  | none => false
  | some code =>
    if code.isEmpty then false
    else if info.localX = 0 ∨ info.localY = 0 ∨ info.localZ = 0 then false
    else if info.localX > lim.maxComputeWorkGroupSizeX ∨
        info.localY > lim.maxComputeWorkGroupSizeY ∨
        info.localZ > lim.maxComputeWorkGroupSizeZ then false
    else if info.localX * info.localY * info.localZ % 2 ^ 64 >
        lim.maxComputeWorkGroupInvocations then false
    else if info.pushConstantBytes > 0 ∧ info.pushConstantBytes % 4 ≠ 0 then false
    else if info.pushConstantBytes > 0 ∧
        info.pushConstantBytes > lim.maxPushConstantsSize then false
    else bindingsValidate lim info.bindings

/-- The construction-stage enum of ComputeProgram, reconstructed from its uses
in easyvk.cpp: the constructor assigns the stages in this order (lines
1792-1993) and teardownFrom gates each release on `state >= stage`
(lines 2329-2376). -/
inductive InitState where
  | INIT_NONE
  | INIT_SHADER
  | INIT_SET_LAYOUTS
  | INIT_PIPELINE_LAYOUT
  | INIT_DESCRIPTOR_POOL
  | INIT_PIPELINE
  | INIT_COMMAND_POOL
  | INIT_COMMAND_BUFFER
  | INIT_FENCE
  | INIT_QUERY_POOL
  | INIT_COMPLETE
deriving DecidableEq

/-- The underlying enum value, in declaration order. -/
def InitState.toNat : InitState → Nat
  | .INIT_NONE => 0
  | .INIT_SHADER => 1
  | .INIT_SET_LAYOUTS => 2
  | .INIT_PIPELINE_LAYOUT => 3
  | .INIT_DESCRIPTOR_POOL => 4
  | .INIT_PIPELINE => 5
  | .INIT_COMMAND_POOL => 6
  | .INIT_COMMAND_BUFFER => 7
  | .INIT_FENCE => 8
  | .INIT_QUERY_POOL => 9
  | .INIT_COMPLETE => 10

/-- The GPU object kinds a ComputeProgram owns. -/
inductive GpuObj where
  | shader
  | setLayout
  | layout
  | dsp
  | pipeline
  | cmdPool
  | cmdBuf
  | fence
  | queryPool
deriving DecidableEq

/-- The handle-holding state of a ComputeProgram: whether each handle is
non-null (setLayouts counts the live descriptor-set-layout handles), plus
initState_, initialized_ and tornDown_. -/
structure ProgState where
  shader : Bool
  setLayouts : Nat
  layout : Bool
  dsp : Bool
  pipeline : Bool
  cmdPool : Bool
  cmdBuf : Bool
  fence : Bool
  queryPool : Bool
  initState : InitState
  initialized : Bool
  tornDown : Bool
deriving DecidableEq

/-- The member-initializer state of the ComputeProgram constructor
(easyvk.cpp lines 1740-1763): every handle null, INIT_NONE, not initialized. -/
def initialProgState : ProgState :=
  ⟨false, 0, false, false, false, false, false, false, false,
    InitState.INIT_NONE, false, false⟩

/-- ComputeProgram::teardownFrom (easyvk.cpp lines 2327-2381): when the device
is live, destroy each handle whose stage has been reached and which is
non-null, in the textual order of the source (query pool, fence, command
buffer, command pool, pipeline, pipeline layout, descriptor pool, set
layouts, shader), null the released handles, then clear initialized_ and set
tornDown_. Returns the new state and the destroyed objects in order. -/
def teardownFrom (hasDevice : Bool) (s : InitState) (st : ProgState) :
    ProgState × List GpuObj :=
  if ¬ hasDevice then ({st with initialized := false, tornDown := true}, [])
  else
    let p0 : ProgState × List GpuObj := (st, [])
    let p1 := if InitState.INIT_QUERY_POOL.toNat ≤ s.toNat ∧ p0.1.queryPool then
        ({p0.1 with queryPool := false}, p0.2 ++ [GpuObj.queryPool]) else p0
    let p2 := if InitState.INIT_FENCE.toNat ≤ s.toNat ∧ p1.1.fence then
        ({p1.1 with fence := false}, p1.2 ++ [GpuObj.fence]) else p1
    let p3 := if InitState.INIT_COMMAND_BUFFER.toNat ≤ s.toNat ∧ p2.1.cmdBuf ∧ p2.1.cmdPool then
        ({p2.1 with cmdBuf := false}, p2.2 ++ [GpuObj.cmdBuf]) else p2
    let p4 := if InitState.INIT_COMMAND_POOL.toNat ≤ s.toNat ∧ p3.1.cmdPool then
        ({p3.1 with cmdPool := false}, p3.2 ++ [GpuObj.cmdPool]) else p3
    let p5 := if InitState.INIT_PIPELINE.toNat ≤ s.toNat ∧ p4.1.pipeline then
        ({p4.1 with pipeline := false}, p4.2 ++ [GpuObj.pipeline]) else p4
    let p6 := if InitState.INIT_PIPELINE_LAYOUT.toNat ≤ s.toNat ∧ p5.1.layout then
        ({p5.1 with layout := false}, p5.2 ++ [GpuObj.layout]) else p5
    let p7 := if InitState.INIT_DESCRIPTOR_POOL.toNat ≤ s.toNat ∧ p6.1.dsp then
        ({p6.1 with dsp := false}, p6.2 ++ [GpuObj.dsp]) else p6
    let p8 := if InitState.INIT_SET_LAYOUTS.toNat ≤ s.toNat then
        ({p7.1 with setLayouts := 0},
          p7.2 ++ List.replicate p7.1.setLayouts GpuObj.setLayout) else p7
    let p9 := if InitState.INIT_SHADER.toNat ≤ s.toNat ∧ p8.1.shader then
        ({p8.1 with shader := false}, p8.2 ++ [GpuObj.shader]) else p8
    ({p9.1 with initialized := false, tornDown := true}, p9.2)

/-- ComputeProgram::teardown (easyvk.cpp lines 2322-2325): a no-op when
already torn down, otherwise teardownFrom(INIT_COMPLETE). -/
def teardown (hasDevice : Bool) (st : ProgState) : ProgState × List GpuObj :=
  if st.tornDown then (st, []) else teardownFrom hasDevice InitState.INIT_COMPLETE st

/-- Number of descriptor-set layouts the constructor creates (easyvk.cpp line
1807): zero when there are no binding entries, otherwise the largest used set
index plus one (gaps get empty placeholder layouts). -/
def numSetLayouts (entries : List BindingEntry) : Nat :=
  if entries.isEmpty then 0 else (entries.map BindingEntry.set).foldl max 0 + 1

/-- Success of each group of driver calls made by the ComputeProgram
constructor, one flag per construction stage. -/
structure VkOracle where
  shaderOk : Bool
  setLayoutsOk : Bool
  pipelineLayoutOk : Bool
  descriptorPoolOk : Bool
  descriptorSetsOk : Bool
  pipelineOk : Bool
  cmdPoolOk : Bool
  cmdBufOk : Bool
  fenceOk : Bool
  queryPoolOk : Bool
deriving DecidableEq

/-- Outcome of ComputeProgram construction: whether it succeeded, the final
state, the GPU objects created (in creation order), and the objects destroyed
by the staged teardown on failure (in destruction order). -/
structure BuildResult where
  success : Bool
  st : ProgState
  created : List GpuObj
  destroyed : List GpuObj
deriving DecidableEq

/-- The tail of the ComputeProgram constructor from pipeline creation on
(easyvk.cpp lines 1908-1993), shared by the with- and without-bindings paths:
pipeline, command pool, command buffer, fence, optional timestamp query pool,
then INIT_COMPLETE. A failing driver call throws; the catch block (lines
1995-1998) runs teardownFrom(initState_) and re-raises. -/
def constructTail (devTs : Bool) (o : VkOracle) (st : ProgState)
    (created : List GpuObj) : BuildResult :=
  if ¬ o.pipelineOk then
    let td := teardownFrom true st.initState st
    ⟨false, td.1, created, td.2⟩
  else
    let st1 := {st with pipeline := true, initState := InitState.INIT_PIPELINE}
    let c1 := created ++ [GpuObj.pipeline]
    if ¬ o.cmdPoolOk then
      let td := teardownFrom true st1.initState st1
      ⟨false, td.1, c1, td.2⟩
    else
      let st2 := {st1 with cmdPool := true, initState := InitState.INIT_COMMAND_POOL}
      let c2 := c1 ++ [GpuObj.cmdPool]
      if ¬ o.cmdBufOk then
        let td := teardownFrom true st2.initState st2
        ⟨false, td.1, c2, td.2⟩
      else
        let st3 := {st2 with cmdBuf := true, initState := InitState.INIT_COMMAND_BUFFER}
        let c3 := c2 ++ [GpuObj.cmdBuf]
        if ¬ o.fenceOk then
          let td := teardownFrom true st3.initState st3
          ⟨false, td.1, c3, td.2⟩
        else
          let st4 := {st3 with fence := true, initState := InitState.INIT_FENCE}
          let c4 := c3 ++ [GpuObj.fence]
          if devTs then
            if ¬ o.queryPoolOk then
              let td := teardownFrom true st4.initState st4
              ⟨false, td.1, c4, td.2⟩
            else
              let st5 := {st4 with queryPool := true, initState := InitState.INIT_QUERY_POOL}
              let c5 := c4 ++ [GpuObj.queryPool]
              ⟨true, {st5 with initState := InitState.INIT_COMPLETE, initialized := true}, c5, []⟩
          else
            ⟨true, {st4 with initState := InitState.INIT_COMPLETE, initialized := true}, c4, []⟩

/-- The middle of the ComputeProgram constructor, from pipeline-layout
creation to descriptor pool and sets (easyvk.cpp lines 1832-1906): the
pipeline layout, then — only when there are binding entries — the descriptor
pool and the descriptor sets, then the tail stages. st and created are the
state and creation trace after the set-layout stage. -/
def constructMid (devTs : Bool) (o : VkOracle) (entries : List BindingEntry)
    (st : ProgState) (created : List GpuObj) : BuildResult :=
  if ¬ o.pipelineLayoutOk then
    let td := teardownFrom true st.initState st
    ⟨false, td.1, created, td.2⟩
  else
    let st3 := {st with layout := true, initState := InitState.INIT_PIPELINE_LAYOUT}
    let c3 := created ++ [GpuObj.layout]
    if entries.isEmpty then constructTail devTs o st3 c3
    else
      if ¬ o.descriptorPoolOk then
        let td := teardownFrom true st3.initState st3
        ⟨false, td.1, c3, td.2⟩
      else
        let st4 := {st3 with dsp := true, initState := InitState.INIT_DESCRIPTOR_POOL}
        let c4 := c3 ++ [GpuObj.dsp]
        if ¬ o.descriptorSetsOk then
          let td := teardownFrom true st4.initState st4
          ⟨false, td.1, c4, td.2⟩
        else constructTail devTs o st4 c4

/-- ComputeProgram::ComputeProgram (easyvk.cpp lines 1740-1999): validate
first (a failure there throws before any driver call); then create the shader
module, the descriptor-set layouts (empty placeholders included), and the
remaining stages (constructMid, constructTail). devTs is
Device::supportsTimestamps(). A failing driver call throws; the catch block
(lines 1995-1998) runs teardownFrom(initState_) and re-raises. -/
def construct (lim : DeviceLimits) (devTs : Bool) (info : ComputeProgramCreateInfo)
    (o : VkOracle) : BuildResult :=
  if ¬ cpciValidate lim info then ⟨false, initialProgState, [], []⟩
  else
    if ¬ o.shaderOk then
      let td := teardownFrom true initialProgState.initState initialProgState
      ⟨false, td.1, [], td.2⟩
    else
      let st1 := {initialProgState with shader := true, initState := InitState.INIT_SHADER}
      let c1 := [GpuObj.shader]
      let n := numSetLayouts info.bindings
      if ¬ o.setLayoutsOk ∧ 0 < n then
        let td := teardownFrom true st1.initState st1
        ⟨false, td.1, c1, td.2⟩
      else
        let st2 := {st1 with setLayouts := n, initState := InitState.INIT_SET_LAYOUTS}
        let c2 := c1 ++ List.replicate n GpuObj.setLayout
        constructMid devTs o info.bindings st2 c2

/-- The destruction order teardownFrom actually follows, as a function of the
created objects: query pool, fence, command buffer, command pool, pipeline,
pipeline layout, descriptor pool, set layouts, shader. -/
def teardownOrder (created : List GpuObj) : List GpuObj :=
  (if GpuObj.queryPool ∈ created then [GpuObj.queryPool] else []) ++
  (if GpuObj.fence ∈ created then [GpuObj.fence] else []) ++
  (if GpuObj.cmdBuf ∈ created then [GpuObj.cmdBuf] else []) ++
  (if GpuObj.cmdPool ∈ created then [GpuObj.cmdPool] else []) ++
  (if GpuObj.pipeline ∈ created then [GpuObj.pipeline] else []) ++
  (if GpuObj.layout ∈ created then [GpuObj.layout] else []) ++
  (if GpuObj.dsp ∈ created then [GpuObj.dsp] else []) ++
  List.replicate (created.count GpuObj.setLayout) GpuObj.setLayout ++
  (if GpuObj.shader ∈ created then [GpuObj.shader] else [])

/-- The destruction order asserted by the claim: the exact reverse of the
construction-stage order (shader, set layouts, pipeline layout, descriptor
pool, pipeline, command pool, command buffer, fence, query pool), so the
descriptor pool would be destroyed before the pipeline layout. Stated from
the claim's words, for comparison with the code's order. -/
def claimedReverseStageOrder (created : List GpuObj) : List GpuObj :=
  (if GpuObj.queryPool ∈ created then [GpuObj.queryPool] else []) ++
  (if GpuObj.fence ∈ created then [GpuObj.fence] else []) ++
  (if GpuObj.cmdBuf ∈ created then [GpuObj.cmdBuf] else []) ++
  (if GpuObj.cmdPool ∈ created then [GpuObj.cmdPool] else []) ++
  (if GpuObj.pipeline ∈ created then [GpuObj.pipeline] else []) ++
  (if GpuObj.dsp ∈ created then [GpuObj.dsp] else []) ++
  (if GpuObj.layout ∈ created then [GpuObj.layout] else []) ++
  List.replicate (created.count GpuObj.setLayout) GpuObj.setLayout ++
  (if GpuObj.shader ∈ created then [GpuObj.shader] else [])

/-- ComputeProgram::setPushConstants (easyvk.cpp lines 2110-2124), in terms of
the configured size pcCfg_.sizeBytes and the byte buffer pcData_. data is the
(possibly null) caller pointer, read as a byte list. Returns the success flag
and the resulting pcData_ contents; a failing call (EVK_FAIL) writes
nothing. -/
def setPushConstants (size : Nat) (pcData : List Nat) (data : Option (List Nat))
    (bytes offset : Nat) : Bool × List Nat :=
  match data with
  | none =>
    if bytes > 0 then (false, pcData)
    else
      let pcData1 := if pcData.length < size then List.replicate size 0 else pcData
      (true, pcData1)
  | some d =>
    let pcData1 := if pcData.length < size then List.replicate size 0 else pcData
    if bytes = 0 then (true, pcData1)
    else if offset > size ∨ bytes > size - offset then (false, pcData1)
    else (true, pcData1.take offset ++ d.take bytes ++ pcData1.drop (offset + bytes))

/-- ComputeProgram::setWorkgroups (easyvk.cpp lines 2126-2143): reject a zero
axis, then reject an axis over the device's per-axis maximum workgroup count;
on rejection the stored counts g are unchanged, otherwise they become
(x, y, z). Returns the success flag and the stored counts. -/
def setWorkgroups (lim : DeviceLimits) (g : Nat × Nat × Nat) (x y z : Nat) :
    Bool × (Nat × Nat × Nat) :=
  if x = 0 ∨ y = 0 ∨ z = 0 then (false, g)
  else if x > lim.maxComputeWorkGroupCountX ∨ y > lim.maxComputeWorkGroupCountY ∨
      z > lim.maxComputeWorkGroupCountZ then (false, g)
  else (true, (x, y, z))

/-- SubmitHandle (easyvk.h lines 82-88): a fence and an optional transient
command buffer, each modelled as an optional handle. -/
structure SubmitHandle where
  fence : Option Nat
  cmdBuf : Option Nat
deriving DecidableEq

/-- What Device::wait does to a SubmitHandle: its return value, whether it
destroyed the fence, and whether it freed the transient command buffer. -/
structure WaitEffects where
  ret : Bool
  fenceDestroyed : Bool
  cmdBufFreed : Bool
deriving DecidableEq

/-- VK_SUCCESS; vkWaitForFences returns VK_TIMEOUT (2) on timeout. -/
def VK_SUCCESS : Int := 0

/-- Device::wait (easyvk.cpp lines 866-877): a null fence returns false with
nothing reclaimed; otherwise the fence is destroyed and the transient command
buffer (when present) freed whatever vkWaitForFences returned, and the call
returns true exactly on VK_SUCCESS. waitResult is the vkWaitForFences
result. -/
def deviceWait (h : SubmitHandle) (waitResult : Int) : WaitEffects :=
  if h.fence = none then ⟨false, false, false⟩
  else ⟨decide (waitResult = VK_SUCCESS), true, decide (h.cmdBuf ≠ none)⟩

/-- ComputeProgram::supportsTimestamps (easyvk.cpp lines 2153-2155): a live
device that reports timestamp support, and a non-null query pool. -/
def programSupportsTimestamps (hasDevice devTs poolPresent : Bool) : Bool :=
  hasDevice && devTs && poolPresent

/-- Outcome of dispatchWithTimingNs: an error (a thrown exception), or a
completed dispatch with the host-barrier flag it used and the nanoseconds it
returned. -/
inductive DispatchOutcome where
  | failed (msg : String)
  | done (hostBarrier : Bool) (elapsedNs : ℚ)
deriving DecidableEq

/-- ComputeProgram::dispatchWithTimingNs (easyvk.cpp lines 2157-2183). Without
timestamp support it runs dispatch() — submitAndWait with the default host
barrier — and returns 0.0. With support it submits with timestamps, waits,
reads the two query results and converts the uint64 tick delta via the
timestamp period. initialized is initialized_; submitOk covers the driver
calls of submitAsync; waitOk is the fence wait; queryOk is
vkGetQueryPoolResults. -/
def dispatchWithTimingNs (supportsTs initialized submitOk waitOk queryOk : Bool)
    (t0 t1 : Nat) (period : ℚ) : DispatchOutcome :=
  if ¬ supportsTs then
    if ¬ initialized then DispatchOutcome.failed "Program not initialized"
    else if ¬ submitOk then DispatchOutcome.failed "Vulkan error"
    else DispatchOutcome.done true 0
  else
    if ¬ initialized then DispatchOutcome.failed "Program not initialized"
    else if ¬ submitOk then DispatchOutcome.failed "Vulkan error"
    else if ¬ waitOk then DispatchOutcome.failed "Failed to wait for dispatch completion"
    else if ¬ queryOk then DispatchOutcome.done true 0
    else DispatchOutcome.done true (((t1 + 2 ^ 64 - t0) % 2 ^ 64 : Nat) * period)

/-- Concrete device limits used by the witnesses and counterexamples. -/
def lim0 : DeviceLimits :=
  ⟨1024, 1024, 64, 1024, 128, 65535, 65535, 65535, 256, 64, 64⟩

/-- A driver oracle where every call succeeds. -/
def okOracle : VkOracle :=
  ⟨true, true, true, true, true, true, true, true, true, true⟩

/-- A valid SPIR-V module header (magic word then four header words). -/
def goodSpirv : List Nat := [SPIRV_MAGIC, 0x00010300, 0, 1, 0]

/-- A non-empty word sequence whose first word is not the SPIR-V magic. -/
def badMagicSpirv : List Nat := [0xDEADBEEF, 0x00010300, 0, 1, 0]

/-- A create info that passes every check of cpciValidate but carries an
invalid SPIR-V magic word. -/
def badMagicInfo : ComputeProgramCreateInfo :=
  ⟨some badMagicSpirv, 8, 1, 1, 16, [⟨0, 0, DescriptorType.storageBuffer, [0]⟩]⟩

/-- A fully valid create info with one storage-buffer binding. -/
def goodInfo : ComputeProgramCreateInfo :=
  ⟨some goodSpirv, 8, 1, 1, 16, [⟨0, 0, DescriptorType.storageBuffer, [0]⟩]⟩

/-- goodInfo with a push-constant size that is not a multiple of 4. -/
def infoPc6 : ComputeProgramCreateInfo :=
  ⟨some goodSpirv, 8, 1, 1, 6, [⟨0, 0, DescriptorType.storageBuffer, [0]⟩]⟩

/-- okOracle with a failing vkCreateComputePipelines call. -/
def pipelineFailOracle : VkOracle :=
  ⟨true, true, true, true, true, false, true, true, true, true⟩

/-- The properties the amended C5 claim asserts of a failing construction:
the staged teardown destroyed exactly the created objects (as a multiset), in
the code's fixed destruction order; every handle is null afterwards; the
instance is unusable (not initialized, torn down); and tearing down again is
a no-op. -/
def C5Props (r : BuildResult) : Prop :=
  r.destroyed = teardownOrder r.created ∧
  List.Perm r.destroyed r.created ∧
  r.st.shader = false ∧ r.st.setLayouts = 0 ∧ r.st.layout = false ∧ r.st.dsp = false ∧
  r.st.pipeline = false ∧ r.st.cmdPool = false ∧ r.st.cmdBuf = false ∧
  r.st.fence = false ∧ r.st.queryPool = false ∧
  r.st.initialized = false ∧ r.st.tornDown = true ∧
  teardown true r.st = (r.st, [])

/-!
Theorems. Helper lemmas come first, then for each claim its theorem, with the
witness or counterexample the claim's status calls for.
-/

theorem alignDown_le (v a : Nat) : alignDown v a ≤ v := by
  unfold alignDown
  by_cases h1 : a = 0 ∨ a = 1
  · rw [if_pos h1]
  · rw [if_neg h1]
    exact Nat.div_mul_le_self v a

theorem alignDown_dvd (v a : Nat) (h : 0 < a) : a ∣ alignDown v a := by
  unfold alignDown
  by_cases h1 : a = 0 ∨ a = 1
  · rw [if_pos h1]
    rcases h1 with rfl | rfl
    · exact absurd h (lt_irrefl 0)
    · exact one_dvd v
  · rw [if_neg h1]
    exact dvd_mul_left a (v / a)

theorem sub_alignDown (v a : Nat) (h : 0 < a) : v - alignDown v a = v % a := by
  unfold alignDown
  by_cases h1 : a = 0 ∨ a = 1
  · rw [if_pos h1]
    rcases h1 with rfl | rfl
    · exact absurd h (lt_irrefl 0)
    · simp [Nat.mod_one]
  · rw [if_neg h1]
    have hd := Nat.div_add_mod v a
    have hm : v % a < a := Nat.mod_lt v h
    have hq : v / a * a = a * (v / a) := Nat.mul_comm _ a
    omega

theorem alignUp_ge (v a : Nat) (hv : v ≤ 2 ^ 64 - a) : v ≤ alignUp v a := by
  unfold alignUp UINT64_MAX
  by_cases h1 : a = 0 ∨ a = 1
  · rw [if_pos h1]
  · rw [if_neg h1]
    by_cases h2 : v > 2 ^ 64 - 1 - a + 1
    · rw [if_pos h2]
      omega
    · rw [if_neg h2]
      have ha : 0 < a := by omega
      have hd := Nat.div_add_mod (v + a - 1) a
      have hm : (v + a - 1) % a < a := Nat.mod_lt _ ha
      have hq : (v + a - 1) / a * a = a * ((v + a - 1) / a) := Nat.mul_comm _ a
      omega

theorem alignUp_dvd (v a : Nat) (h : 0 < a) (hv : v ≤ 2 ^ 64 - a) : a ∣ alignUp v a := by
  unfold alignUp UINT64_MAX
  by_cases h1 : a = 0 ∨ a = 1
  · rw [if_pos h1]
    rcases h1 with rfl | rfl
    · exact absurd h (lt_irrefl 0)
    · exact one_dvd v
  · rw [if_neg h1]
    by_cases h2 : v > 2 ^ 64 - 1 - a + 1
    · exact absurd h2 (by omega)
    · rw [if_neg h2]
      exact dvd_mul_left a _

/-- C1 (amended): for every valid request (len > 0, offset + len <= size) with
a positive atom size (and sizes in the uint64 range the code admits), the
aligned bounds computed by mapWrite and mapRead satisfy: alignedOff is an
exact multiple of the atom size, the aligned range contains the requested
range, alignedOff + alignedLen never exceeds the buffer size, and alignedLen
is an exact multiple of the atom size whenever the clamp to the buffer size
does not fire. (The unamended claim also asserts the multiple property for
the clamped case; the counterexample refutes that.) -/
theorem c1_mapWrite_mapRead_aligned_bounds (size atom offset len : Nat)
    (hatom : 0 < atom) (hatomB : atom ≤ 2 ^ 62)
    (hlen : 0 < len) (hreq : offset + len ≤ size) (hsize : size ≤ 2 ^ 63) :
    atom ∣ (mapAligned size atom offset len).1 ∧
    (mapAligned size atom offset len).1 ≤ offset ∧
    offset + len ≤ (mapAligned size atom offset len).1 + (mapAligned size atom offset len).2 ∧
    (mapAligned size atom offset len).1 + (mapAligned size atom offset len).2 ≤ size ∧
    (alignDown offset atom + alignUp (len + (offset - alignDown offset atom)) atom ≤ size →
      atom ∣ (mapAligned size atom offset len).2) := by
  have hOff_le : alignDown offset atom ≤ offset := alignDown_le offset atom
  have hOff_dvd : atom ∣ alignDown offset atom := alignDown_dvd offset atom hatom
  have hsub : offset - alignDown offset atom = offset % atom := sub_alignDown offset atom hatom
  have hmod : offset % atom < atom := Nat.mod_lt offset hatom
  have hvB : len + (offset - alignDown offset atom) ≤ 2 ^ 64 - atom := by omega
  have hge := alignUp_ge (len + (offset - alignDown offset atom)) atom hvB
  have hdvd := alignUp_dvd (len + (offset - alignDown offset atom)) atom hatom hvB
  unfold mapAligned
  simp only
  by_cases hclamp :
      alignDown offset atom + alignUp (len + (offset - alignDown offset atom)) atom > size
  · rw [if_pos hclamp]
    refine ⟨hOff_dvd, hOff_le, by omega, by omega, fun hcontra => absurd hcontra (by omega)⟩
  · rw [if_neg hclamp]
    exact ⟨hOff_dvd, hOff_le, by omega, by omega, fun _ => hdvd⟩

/-- Witness for the amended C1 theorem at size 64, atom 4, offset 6, len 5. -/
theorem c1_aligned_bounds_witness :
    4 ∣ (mapAligned 64 4 6 5).1 ∧
    (mapAligned 64 4 6 5).1 ≤ 6 ∧
    6 + 5 ≤ (mapAligned 64 4 6 5).1 + (mapAligned 64 4 6 5).2 ∧
    (mapAligned 64 4 6 5).1 + (mapAligned 64 4 6 5).2 ≤ 64 ∧
    (alignDown 6 4 + alignUp (5 + (6 - alignDown 6 4)) 4 ≤ 64 →
      4 ∣ (mapAligned 64 4 6 5).2) :=
  c1_mapWrite_mapRead_aligned_bounds 64 4 6 5 (by decide) (by decide) (by decide)
    (by decide) (by decide)

/-- C1 counterexample: for a buffer of size 10, non-coherent atom size 4 and
the valid request (offset 8, len 2), the clamp fires and the alignedLen the
code computes is 2, which is not a multiple of the atom size 4 — refuting the
claim that alignedLen is always an exact multiple of the atom size. -/
theorem c1_alignedLen_not_atom_multiple :
    0 < 2 ∧ 8 + 2 ≤ 10 ∧ ¬ (4 ∣ (mapAligned 10 4 8 2).2) := by decide

theorem and_shift_ne_iff_testBit (bits i : Nat) (h : i < 32) :
    (bits &&& ((1 <<< i) % 2 ^ 32) ≠ 0) ↔ bits.testBit i = true := by
  have h1 : (1 : Nat) <<< i = 2 ^ i := by rw [Nat.shiftLeft_eq, one_mul]
  have h2 : (2 : Nat) ^ i < 2 ^ 32 := Nat.pow_lt_pow_right (by norm_num) h
  rw [h1, Nat.mod_eq_of_lt h2, Nat.and_two_pow]
  cases hb : bits.testBit i <;> simp [hb]

theorem selectMemoryGo_spec (bits flags : Nat) (l : List Nat) (i : Nat) :
    (∀ j, selectMemoryGo bits flags l i = some j →
      i ≤ j ∧ j - i < l.length ∧
      (bits &&& ((1 <<< j) % 2 ^ 32) ≠ 0 ∧ flags &&& l.getD (j - i) 0 = flags) ∧
      ∀ k, k < j - i →
        ¬ (bits &&& ((1 <<< (i + k)) % 2 ^ 32) ≠ 0 ∧ flags &&& l.getD k 0 = flags)) ∧
    (selectMemoryGo bits flags l i = none → ∀ k, k < l.length →
      ¬ (bits &&& ((1 <<< (i + k)) % 2 ^ 32) ≠ 0 ∧ flags &&& l.getD k 0 = flags)) := by
  induction l generalizing i with
  | nil =>
    constructor
    · intro j hj
      simp [selectMemoryGo] at hj
    · intro _ k hk
      exact absurd hk (by simp)
  | cons p rest ih =>
    by_cases hc : bits &&& ((1 <<< i) % 2 ^ 32) ≠ 0 ∧ flags &&& p = flags
    · constructor
      · intro j hj
        simp only [selectMemoryGo, if_pos hc, Option.some.injEq] at hj
        subst hj
        refine ⟨le_refl i, by simp, by simpa using hc, ?_⟩
        intro k hk
        exact absurd hk (by omega)
      · intro hnone
        simp only [selectMemoryGo, if_pos hc] at hnone
        cases hnone
    · constructor
      · intro j hj
        simp only [selectMemoryGo, if_neg hc] at hj
        obtain ⟨h1, h2, h3, h4⟩ := (ih (i + 1)).1 j hj
        refine ⟨by omega, by simp; omega, ?_, ?_⟩
        · have he : j - i = (j - (i + 1)) + 1 := by omega
          rw [he, List.getD_cons_succ]
          exact h3
        · intro k hk
          cases k with
          | zero =>
            simpa using hc
          | succ k =>
            rw [List.getD_cons_succ]
            have he : i + (k + 1) = (i + 1) + k := by omega
            rw [he]
            exact h4 k (by omega)
      · intro hnone k hk
        simp only [selectMemoryGo, if_neg hc] at hnone
        cases k with
        | zero =>
          simpa using hc
        | succ k =>
          rw [List.getD_cons_succ]
          have he : i + (k + 1) = (i + 1) + k := by omega
          rw [he]
          exact (ih (i + 1)).2 hnone k (by simpa using hk)

/-- C2: selectMemory returns the first (lowest) index whose bit is set in
typeBits and whose property flags are a superset of requiredFlags, and
reports the no-suitable-memory-type error (modelled as none) exactly when no
index qualifies. The memory-type table of a Vulkan device has at most 32
entries (VK_MAX_MEMORY_TYPES), which keeps the uint32 shift in range. -/
theorem c2_selectMemory_first_suitable (memoryTypes : List Nat) (bits flags : Nat)
    (h32 : memoryTypes.length ≤ 32) :
    (∀ i, selectMemory memoryTypes bits flags = some i →
      suitableMemoryType memoryTypes bits flags i ∧
      ∀ j, j < i → ¬ suitableMemoryType memoryTypes bits flags j) ∧
    (selectMemory memoryTypes bits flags = none →
      ∀ j, ¬ suitableMemoryType memoryTypes bits flags j) := by
  have hs := selectMemoryGo_spec bits flags memoryTypes 0
  constructor
  · intro i hi
    obtain ⟨h1, h2, h3, h4⟩ := hs.1 i hi
    rw [Nat.sub_zero] at h2 h3
    constructor
    · exact ⟨h2, (and_shift_ne_iff_testBit bits i (by omega)).mp h3.1, h3.2⟩
    · intro j hj hsj
      obtain ⟨hjlen, hjbit, hjflags⟩ := hsj
      refine h4 j (by omega) ⟨?_, hjflags⟩
      rw [Nat.zero_add]
      exact (and_shift_ne_iff_testBit bits j (by omega)).mpr hjbit
  · intro hnone j hsj
    obtain ⟨hjlen, hjbit, hjflags⟩ := hsj
    refine hs.2 hnone j hjlen ⟨?_, hjflags⟩
    rw [Nat.zero_add]
    exact (and_shift_ne_iff_testBit bits j (by omega)).mpr hjbit

/-- Witness for C2 on the table [1, 6, 14] with typeBits 6 and flags 6:
selectMemory returns index 1, the first suitable one. -/
theorem c2_selectMemory_witness :
    (∀ i, selectMemory [1, 6, 14] 6 6 = some i →
      suitableMemoryType [1, 6, 14] 6 6 i ∧
      ∀ j, j < i → ¬ suitableMemoryType [1, 6, 14] 6 6 j) ∧
    (selectMemory [1, 6, 14] 6 6 = none →
      ∀ j, ¬ suitableMemoryType [1, 6, 14] 6 6 j) :=
  c2_selectMemory_first_suitable [1, 6, 14] 6 6 (by decide)

/-- C3: Buffer construction with a valid size derives its allocation attempts
from the host-access mode: mode None requests device-local memory only, with
no fallback; any other mode tries host-visible+coherent, then
host-visible+cached, then host-visible, in exactly that order, stopping at
the first success and failing only after every attempt in the chain fails.
The result and the attempted flag sets coincide with trying the chain in
order (firstSucceeding). -/
theorem c3_buffer_alloc_fallback_chain (size : Nat) (host : HostAccess)
    (alloc : Nat → Bool) (hsize : bufferValidateMsg size = none) :
    (bufferConstruct size host true alloc).memFlags =
      (firstSucceeding alloc (if host = HostAccess.noAccess then [DEVICE_LOCAL_BIT]
        else [HOST_VISIBLE_BIT ||| HOST_COHERENT_BIT,
          HOST_VISIBLE_BIT ||| HOST_CACHED_BIT, HOST_VISIBLE_BIT])).1 ∧
    (bufferConstruct size host true alloc).attempts =
      (firstSucceeding alloc (if host = HostAccess.noAccess then [DEVICE_LOCAL_BIT]
        else [HOST_VISIBLE_BIT ||| HOST_COHERENT_BIT,
          HOST_VISIBLE_BIT ||| HOST_CACHED_BIT, HOST_VISIBLE_BIT])).2 ∧
    ((bufferConstruct size host true alloc).err = none ↔
      (firstSucceeding alloc (if host = HostAccess.noAccess then [DEVICE_LOCAL_BIT]
        else [HOST_VISIBLE_BIT ||| HOST_COHERENT_BIT,
          HOST_VISIBLE_BIT ||| HOST_CACHED_BIT, HOST_VISIBLE_BIT])).1 ≠ none) := by
  cases host with
  | noAccess =>
    by_cases h1 : alloc DEVICE_LOCAL_BIT <;>
      simp [bufferConstruct, hsize, firstSucceeding, h1]
  | write =>
    by_cases h1 : alloc 6 <;>
      by_cases h2 : alloc 10 <;>
      by_cases h3 : alloc 2 <;>
      simp [bufferConstruct, hsize, firstSucceeding, h1, h2, h3,
        HOST_VISIBLE_BIT, HOST_COHERENT_BIT, HOST_CACHED_BIT]
  | read =>
    by_cases h1 : alloc 6 <;>
      by_cases h2 : alloc 10 <;>
      by_cases h3 : alloc 2 <;>
      simp [bufferConstruct, hsize, firstSucceeding, h1, h2, h3,
        HOST_VISIBLE_BIT, HOST_COHERENT_BIT, HOST_CACHED_BIT]
  | readWrite =>
    by_cases h1 : alloc 6 <;>
      by_cases h2 : alloc 10 <;>
      by_cases h3 : alloc 2 <;>
      simp [bufferConstruct, hsize, firstSucceeding, h1, h2, h3,
        HOST_VISIBLE_BIT, HOST_COHERENT_BIT, HOST_CACHED_BIT]

/-- Witness for C3 at size 16, host Write, with an allocator that accepts
only plain host-visible memory, exercising the full fallback chain. -/
theorem c3_fallback_chain_witness :
    (bufferConstruct 16 HostAccess.write true (fun f => f == HOST_VISIBLE_BIT)).memFlags =
      (firstSucceeding (fun f => f == HOST_VISIBLE_BIT)
        (if HostAccess.write = HostAccess.noAccess then [DEVICE_LOCAL_BIT]
          else [HOST_VISIBLE_BIT ||| HOST_COHERENT_BIT,
            HOST_VISIBLE_BIT ||| HOST_CACHED_BIT, HOST_VISIBLE_BIT])).1 ∧
    (bufferConstruct 16 HostAccess.write true (fun f => f == HOST_VISIBLE_BIT)).attempts =
      (firstSucceeding (fun f => f == HOST_VISIBLE_BIT)
        (if HostAccess.write = HostAccess.noAccess then [DEVICE_LOCAL_BIT]
          else [HOST_VISIBLE_BIT ||| HOST_COHERENT_BIT,
            HOST_VISIBLE_BIT ||| HOST_CACHED_BIT, HOST_VISIBLE_BIT])).2 ∧
    ((bufferConstruct 16 HostAccess.write true (fun f => f == HOST_VISIBLE_BIT)).err = none ↔
      (firstSucceeding (fun f => f == HOST_VISIBLE_BIT)
        (if HostAccess.write = HostAccess.noAccess then [DEVICE_LOCAL_BIT]
          else [HOST_VISIBLE_BIT ||| HOST_COHERENT_BIT,
            HOST_VISIBLE_BIT ||| HOST_CACHED_BIT, HOST_VISIBLE_BIT])).1 ≠ none) :=
  c3_buffer_alloc_fallback_chain 16 HostAccess.write (fun f => f == HOST_VISIBLE_BIT)
    (by decide)

/-- C9: a Buffer construction request of size zero, or of any size greater
than UINT64_MAX / 2, is rejected by BufferCreateInfo::validate with a
validation error before createVkBuffer is ever called, so no GPU buffer or
memory object is created. -/
theorem c9_zero_size_rejected (size : Nat) (host : HostAccess) (devValid : Bool)
    (alloc : Nat → Bool) (h : size = 0 ∨ UINT64_MAX / 2 < size) :
    (bufferConstruct size host devValid alloc).err.isSome = true ∧
    (bufferConstruct size host devValid alloc).memFlags = none ∧
    (bufferConstruct size host devValid alloc).attempts = [] := by
  rcases h with rfl | h
  · simp [bufferConstruct, bufferValidateMsg]
  · have hz : ¬ size = 0 := by
      simp only [UINT64_MAX] at h
      omega
    have hv : bufferValidateMsg size = some "Buffer size too large" := by
      unfold bufferValidateMsg
      rw [if_neg hz, if_pos h]
    simp [bufferConstruct, hv]

/-- Witness for C9 at size zero. -/
theorem c9_zero_size_witness :
    (bufferConstruct 0 HostAccess.write true (fun _ => true)).err.isSome = true ∧
    (bufferConstruct 0 HostAccess.write true (fun _ => true)).memFlags = none ∧
    (bufferConstruct 0 HostAccess.write true (fun _ => true)).attempts = [] :=
  c9_zero_size_rejected 0 HostAccess.write true (fun _ => true) (Or.inl rfl)

/-- C4 (amended): all construction-time validation — shader binary non-empty
(the SPIR-V header magic word is NOT checked at construction; see the
counterexample), workgroup dimensions and invocation count within limits,
push-constant size a multiple of 4 and within the device limit, descriptor
offsets aligned — happens before any GPU object is created: a construction
whose validation fails (in particular one whose push-constant size is not a
multiple of 4 or exceeds the limit) returns with the initial state, creating
no shader module, pipeline, or descriptor pool. -/
theorem c4_validation_before_creation (lim : DeviceLimits) (devTs : Bool)
    (info : ComputeProgramCreateInfo) (o : VkOracle)
    (h : cpciValidate lim info = false) :
    (construct lim devTs info o = ⟨false, initialProgState, [], []⟩ ∧
      initialProgState.shader = false ∧ initialProgState.pipeline = false ∧
      initialProgState.dsp = false) ∧
    (∀ (lim2 : DeviceLimits) (info2 : ComputeProgramCreateInfo),
      0 < info2.pushConstantBytes →
      (info2.pushConstantBytes % 4 ≠ 0 ∨
        lim2.maxPushConstantsSize < info2.pushConstantBytes) →
      cpciValidate lim2 info2 = false) := by
  constructor
  · refine ⟨?_, rfl, rfl, rfl⟩
    simp [construct, h]
  · intro lim2 info2 hpc hbad
    unfold cpciValidate
    split
    · rfl
    · split_ifs <;> first | rfl | (exfalso; omega)

/-- Witness for the amended C4 theorem: a push-constant size of 6 bytes (not
a multiple of 4) fails validation and construction creates nothing. -/
theorem c4_validation_witness :
    (construct lim0 false infoPc6 okOracle = ⟨false, initialProgState, [], []⟩ ∧
      initialProgState.shader = false ∧ initialProgState.pipeline = false ∧
      initialProgState.dsp = false) ∧
    (∀ (lim2 : DeviceLimits) (info2 : ComputeProgramCreateInfo),
      0 < info2.pushConstantBytes →
      (info2.pushConstantBytes % 4 ≠ 0 ∨
        lim2.maxPushConstantsSize < info2.pushConstantBytes) →
      cpciValidate lim2 info2 = false) :=
  c4_validation_before_creation lim0 false infoPc6 okOracle (by decide)

/-- C4 counterexample: construction-time validation does not include the
SPIR-V header magic word. A create info whose first shader word is not the
magic (so isValidSPIRV rejects it) still passes
ComputeProgramCreateInfo::validate, and construction proceeds to create the
shader module and every later GPU object — refuting the claim that magic-word
validation happens before any GPU object is created. -/
theorem c4_magic_not_validated :
    cpciValidate lim0 badMagicInfo = true ∧
    isValidSPIRV badMagicSpirv = false ∧
    (construct lim0 false badMagicInfo okOracle).success = true ∧
    GpuObj.shader ∈ (construct lim0 false badMagicInfo okOracle).created := by decide

/-- C6 (amended): a setPushConstants call whose span [offset, offset + bytes)
extends past the configured capacity is rejected with an error and writes
nothing at all — the stored bytes are left unchanged (so no byte outside the
configured buffer is written, but the in-capacity bytes are NOT stored; see
the counterexample). An in-range call stores exactly the requested span. The
hypothesis pcData.length = size is the constructor invariant (pcData_ is
allocated at the configured size). -/
theorem c6_push_constants_rejected_unchanged (size : Nat) (pcData : List Nat)
    (d : List Nat) (bytes offset : Nat) (hlen : pcData.length = size)
    (hbytes : 0 < bytes) :
    (size < offset + bytes →
      setPushConstants size pcData (some d) bytes offset = (false, pcData)) ∧
    (offset + bytes ≤ size →
      setPushConstants size pcData (some d) bytes offset =
        (true, pcData.take offset ++ d.take bytes ++ pcData.drop (offset + bytes))) := by
  have h1 : ¬ pcData.length < size := by omega
  constructor
  · intro hspan
    simp only [setPushConstants, if_neg h1]
    rw [if_neg (by omega : ¬ bytes = 0), if_pos (by omega : offset > size ∨ bytes > size - offset)]
  · intro hspan
    simp only [setPushConstants, if_neg h1]
    rw [if_neg (by omega : ¬ bytes = 0),
      if_neg (by omega : ¬ (offset > size ∨ bytes > size - offset))]

/-- Witness for the amended C6 theorem at capacity 8: the out-of-range call
(offset 6, bytes 4) is rejected leaving the buffer unchanged, and the
in-range call (offset 2, bytes 4) stores exactly the requested span. -/
theorem c6_push_constants_witness :
    (8 < 6 + 4 →
      setPushConstants 8 [0, 0, 0, 0, 0, 0, 0, 0] (some [7, 7, 7, 7]) 4 6 =
        (false, [0, 0, 0, 0, 0, 0, 0, 0])) ∧
    (2 + 4 ≤ 8 →
      setPushConstants 8 [0, 0, 0, 0, 0, 0, 0, 0] (some [7, 7, 7, 7]) 4 2 =
        (true, [0, 0, 0, 0, 0, 0, 0, 0].take 2 ++ [7, 7, 7, 7].take 4 ++
          [0, 0, 0, 0, 0, 0, 0, 0].drop (2 + 4))) :=
  ⟨(c6_push_constants_rejected_unchanged 8 [0, 0, 0, 0, 0, 0, 0, 0] [7, 7, 7, 7] 4 6
      (by decide) (by decide)).1,
   (c6_push_constants_rejected_unchanged 8 [0, 0, 0, 0, 0, 0, 0, 0] [7, 7, 7, 7] 4 2
      (by decide) (by decide)).2⟩

/-- C6 counterexample: with configured capacity 8, a call writing 8 bytes at
offset 4 (span ending at 12, past the capacity) is rejected and stores
nothing: byte 4, which lies within the capacity and which the claim says is
still stored, remains 0 instead of the caller's 1. -/
theorem c6_in_capacity_bytes_not_stored :
    8 < 4 + 8 ∧
    (setPushConstants 8 (List.replicate 8 0) (some (List.replicate 8 1)) 8 4).1 = false ∧
    (setPushConstants 8 (List.replicate 8 0) (some (List.replicate 8 1)) 8 4).2.getD 4 0
      = 0 := by decide

/-- C7: setWorkgroups rejects a call in which some axis is 0 or exceeds the
device's per-axis maximum workgroup count, leaving the stored counts exactly
as they were; when every axis is at least 1 and within the limits, it
succeeds and the stored counts become (x, y, z). -/
theorem c7_setWorkgroups_reject_or_set (lim : DeviceLimits) (g : Nat × Nat × Nat)
    (x y z : Nat) :
    ((x = 0 ∨ y = 0 ∨ z = 0 ∨ x > lim.maxComputeWorkGroupCountX ∨
        y > lim.maxComputeWorkGroupCountY ∨ z > lim.maxComputeWorkGroupCountZ) →
      setWorkgroups lim g x y z = (false, g)) ∧
    ((1 ≤ x ∧ 1 ≤ y ∧ 1 ≤ z ∧ x ≤ lim.maxComputeWorkGroupCountX ∧
        y ≤ lim.maxComputeWorkGroupCountY ∧ z ≤ lim.maxComputeWorkGroupCountZ) →
      setWorkgroups lim g x y z = (true, (x, y, z))) := by
  unfold setWorkgroups
  constructor
  · intro h
    split_ifs with h1 h2
    · rfl
    · rfl
    · exfalso; omega
  · intro h
    rw [if_neg (by omega), if_neg (by omega)]

/-- Witness for C7: with per-axis limit 65535 and stored counts (3, 4, 5), a
zero x-axis is rejected leaving (3, 4, 5), and (7, 8, 9) is accepted. -/
theorem c7_setWorkgroups_witness :
    ((0 = 0 ∨ 4 = 0 ∨ 5 = 0 ∨ 0 > lim0.maxComputeWorkGroupCountX ∨
        4 > lim0.maxComputeWorkGroupCountY ∨ 5 > lim0.maxComputeWorkGroupCountZ) →
      setWorkgroups lim0 (3, 4, 5) 0 4 5 = (false, (3, 4, 5))) ∧
    ((1 ≤ 7 ∧ 1 ≤ 8 ∧ 1 ≤ 9 ∧ 7 ≤ lim0.maxComputeWorkGroupCountX ∧
        8 ≤ lim0.maxComputeWorkGroupCountY ∧ 9 ≤ lim0.maxComputeWorkGroupCountZ) →
      setWorkgroups lim0 (3, 4, 5) 7 8 9 = (true, (7, 8, 9))) :=
  ⟨(c7_setWorkgroups_reject_or_set lim0 (3, 4, 5) 0 4 5).1,
   (c7_setWorkgroups_reject_or_set lim0 (3, 4, 5) 7 8 9).2⟩

/-- C8: Device::wait is single-use. For a handle with a non-null fence it
destroys the fence and frees the transient command buffer when one is
present, whatever vkWaitForFences returned (success, timeout, or error), and
returns true exactly when the wait returned VK_SUCCESS. For a handle with a
null fence it returns false and reclaims nothing. -/
theorem c8_wait_single_use (h : SubmitHandle) (waitResult : Int) :
    (h.fence ≠ none →
      (deviceWait h waitResult).fenceDestroyed = true ∧
      ((deviceWait h waitResult).cmdBufFreed = true ↔ h.cmdBuf ≠ none) ∧
      ((deviceWait h waitResult).ret = true ↔ waitResult = VK_SUCCESS)) ∧
    (h.fence = none → deviceWait h waitResult = ⟨false, false, false⟩) := by
  unfold deviceWait
  constructor
  · intro hf
    rw [if_neg hf]
    refine ⟨rfl, ?_, ?_⟩ <;> simp
  · intro hf
    rw [if_pos hf]

/-- Witness for C8 on a handle with fence and command buffer, timed out
(vkWaitForFences returned VK_TIMEOUT = 2): both are reclaimed and the wait
reports false. -/
theorem c8_wait_witness :
    (SubmitHandle.mk (some 1) (some 2)).fence ≠ none →
      (deviceWait (SubmitHandle.mk (some 1) (some 2)) 2).fenceDestroyed = true ∧
      ((deviceWait (SubmitHandle.mk (some 1) (some 2)) 2).cmdBufFreed = true ↔
        (SubmitHandle.mk (some 1) (some 2)).cmdBuf ≠ none) ∧
      ((deviceWait (SubmitHandle.mk (some 1) (some 2)) 2).ret = true ↔
        (2 : Int) = VK_SUCCESS) :=
  (c8_wait_single_use (SubmitHandle.mk (some 1) (some 2)) 2).1

/-- C10: on a device that does not report timestamp support the program has
no usable timestamp path (supportsTimestamps() is false however the query
pool handle turned out), and dispatchWithTimingNs of an initialized program
does not fail: it performs the normal synchronous dispatch with the default
host barrier and returns 0.0. -/
theorem c10_timing_fallback_dispatch (hasDevice poolPresent waitOk queryOk : Bool)
    (t0 t1 : Nat) (period : ℚ) :
    programSupportsTimestamps hasDevice false poolPresent = false ∧
    dispatchWithTimingNs (programSupportsTimestamps hasDevice false poolPresent)
      true true waitOk queryOk t0 t1 period = DispatchOutcome.done true 0 := by
  constructor
  · unfold programSupportsTimestamps
    simp
  · unfold dispatchWithTimingNs programSupportsTimestamps
    simp

set_option maxHeartbeats 1000000 in
/-- Every handle a failing construction releases is destroyed exactly once, in
the code's fixed destruction order, from any failure inside the constructor
tail (pipeline stage onward). -/
theorem constructTail_c5 (devTs : Bool) (o : VkOracle) (n : Nat) (d : Bool)
    (st : ProgState) (created : List GpuObj)
    (hst : st = ⟨true, n, true, d, false, false, false, false, false,
      (if d then InitState.INIT_DESCRIPTOR_POOL else InitState.INIT_PIPELINE_LAYOUT),
      false, false⟩)
    (hcreated : created = [GpuObj.shader] ++ List.replicate n GpuObj.setLayout ++
      [GpuObj.layout] ++ (if d then [GpuObj.dsp] else []))
    (hfail : (constructTail devTs o st created).success = false) :
    C5Props (constructTail devTs o st created) := by
  subst hst hcreated
  obtain ⟨so, slo, plo, dpo, dso, po, cpo, cbo, fo, qo⟩ := o
  cases d <;>
  · cases po
    · unfold C5Props
      simp only [constructTail, reduceIte]
      refine ⟨?_, ?_, ?_, ?_, ?_, ?_, ?_, ?_, ?_, ?_, ?_, ?_, ?_, ?_⟩ <;>
        first
          | (refine List.perm_iff_count.mpr fun a => ?_
             cases a <;>
               simp [teardownFrom, InitState.toNat, initialProgState, List.count_append,
                 List.count_replicate, List.count_cons, List.count_nil] <;>
               omega)
          | (simp [teardownFrom, teardownOrder, teardown, InitState.toNat, initialProgState]
             done)
    · cases cpo
      · unfold C5Props
        simp only [constructTail, reduceIte]
        refine ⟨?_, ?_, ?_, ?_, ?_, ?_, ?_, ?_, ?_, ?_, ?_, ?_, ?_, ?_⟩ <;>
          first
            | (refine List.perm_iff_count.mpr fun a => ?_
               cases a <;>
                 simp [teardownFrom, InitState.toNat, initialProgState, List.count_append,
                   List.count_replicate, List.count_cons, List.count_nil] <;>
                 omega)
            | (simp [teardownFrom, teardownOrder, teardown, InitState.toNat, initialProgState]
               done)
      · cases cbo
        · unfold C5Props
          simp only [constructTail, reduceIte]
          refine ⟨?_, ?_, ?_, ?_, ?_, ?_, ?_, ?_, ?_, ?_, ?_, ?_, ?_, ?_⟩ <;>
            first
              | (refine List.perm_iff_count.mpr fun a => ?_
                 cases a <;>
                   simp [teardownFrom, InitState.toNat, initialProgState, List.count_append,
                     List.count_replicate, List.count_cons, List.count_nil] <;>
                   omega)
              | (simp [teardownFrom, teardownOrder, teardown, InitState.toNat, initialProgState]
                 done)
        · cases fo
          · unfold C5Props
            simp only [constructTail, reduceIte]
            refine ⟨?_, ?_, ?_, ?_, ?_, ?_, ?_, ?_, ?_, ?_, ?_, ?_, ?_, ?_⟩ <;>
              first
                | (refine List.perm_iff_count.mpr fun a => ?_
                   cases a <;>
                     simp [teardownFrom, InitState.toNat, initialProgState, List.count_append,
                       List.count_replicate, List.count_cons, List.count_nil] <;>
                     omega)
                | (simp [teardownFrom, teardownOrder, teardown, InitState.toNat, initialProgState]
                   done)
          · cases devTs
            · simp [constructTail] at hfail
            · cases qo
              · unfold C5Props
                simp only [constructTail, reduceIte]
                refine ⟨?_, ?_, ?_, ?_, ?_, ?_, ?_, ?_, ?_, ?_, ?_, ?_, ?_, ?_⟩ <;>
                  first
                    | (refine List.perm_iff_count.mpr fun a => ?_
                       cases a <;>
                         simp [teardownFrom, InitState.toNat, initialProgState, List.count_append,
                           List.count_replicate, List.count_cons, List.count_nil] <;>
                         omega)
                    | (simp [teardownFrom, teardownOrder, teardown, InitState.toNat, initialProgState]
                       done)
              · simp [constructTail] at hfail

set_option maxHeartbeats 1000000 in
/-- As constructTail_c5, for failures from the pipeline-layout stage onward. -/
theorem constructMid_c5 (devTs : Bool) (o : VkOracle) (entries : List BindingEntry)
    (n : Nat) (st : ProgState) (created : List GpuObj)
    (hst : st = ⟨true, n, false, false, false, false, false, false, false,
      InitState.INIT_SET_LAYOUTS, false, false⟩)
    (hcreated : created = [GpuObj.shader] ++ List.replicate n GpuObj.setLayout)
    (hfail : (constructMid devTs o entries st created).success = false) :
    C5Props (constructMid devTs o entries st created) := by
  subst hst hcreated
  obtain ⟨so, slo, plo, dpo, dso, po, cpo, cbo, fo, qo⟩ := o
  cases plo
  · unfold C5Props
    simp only [constructMid, reduceIte]
    refine ⟨?_, ?_, ?_, ?_, ?_, ?_, ?_, ?_, ?_, ?_, ?_, ?_, ?_, ?_⟩ <;>
      first
        | (refine List.perm_iff_count.mpr fun a => ?_
           cases a <;>
             simp [teardownFrom, InitState.toNat, initialProgState, List.count_append,
               List.count_replicate, List.count_cons, List.count_nil] <;>
             omega)
        | (simp [teardownFrom, teardownOrder, teardown, InitState.toNat, initialProgState]
           done)
  · revert hfail
    simp only [constructMid, reduceIte]
    cases he : entries.isEmpty <;> intro hfail
    · simp [he] at hfail ⊢
      cases dpo
      · unfold C5Props
        simp only [reduceIte]
        refine ⟨?_, ?_, ?_, ?_, ?_, ?_, ?_, ?_, ?_, ?_, ?_, ?_, ?_, ?_⟩ <;>
          first
            | (refine List.perm_iff_count.mpr fun a => ?_
               cases a <;>
                 simp [teardownFrom, InitState.toNat, initialProgState, List.count_append,
                   List.count_replicate, List.count_cons, List.count_nil] <;>
                 omega)
            | (simp [teardownFrom, teardownOrder, teardown, InitState.toNat, initialProgState]
               done)
      · cases dso
        · unfold C5Props
          simp only [reduceIte]
          refine ⟨?_, ?_, ?_, ?_, ?_, ?_, ?_, ?_, ?_, ?_, ?_, ?_, ?_, ?_⟩ <;>
            first
              | (refine List.perm_iff_count.mpr fun a => ?_
                 cases a <;>
                   simp [teardownFrom, InitState.toNat, initialProgState, List.count_append,
                     List.count_replicate, List.count_cons, List.count_nil] <;>
                   omega)
              | (simp [teardownFrom, teardownOrder, teardown, InitState.toNat, initialProgState]
                 done)
        · exact constructTail_c5 devTs _ n true _ _ (by simp) (by simp) hfail
    · simp [he] at hfail ⊢
      exact constructTail_c5 devTs _ n false _ _ (by simp) (by simp) hfail

set_option maxHeartbeats 1000000 in
/-- C5 (amended): a ComputeProgram construction that fails after validation,
at whatever stage, tears down exactly the GPU objects created in the stages
already completed — the destroyed trace is a permutation of the creation
trace and follows the code's fixed destruction order (query pool, fence,
command buffer, command pool, pipeline, then pipeline layout BEFORE the
descriptor pool — not the claim's exact reverse stage order; see the
counterexample — then set layouts, shader); every handle is left null, the
instance is left unusable (not initialized, torn down), the error is
re-raised (the construction reports failure), and tearing down again
afterwards is a no-op. -/
theorem c5_staged_teardown_exact (lim : DeviceLimits) (devTs : Bool)
    (info : ComputeProgramCreateInfo) (o : VkOracle)
    (hval : cpciValidate lim info = true)
    (hfail : (construct lim devTs info o).success = false) :
    C5Props (construct lim devTs info o) := by
  obtain ⟨so, slo, plo, dpo, dso, po, cpo, cbo, fo, qo⟩ := o
  revert hfail
  unfold construct
  rw [hval]
  cases so <;> intro hfail
  · unfold C5Props
    refine ⟨?_, ?_, ?_, ?_, ?_, ?_, ?_, ?_, ?_, ?_, ?_, ?_, ?_, ?_⟩ <;>
      first
        | (refine List.perm_iff_count.mpr fun a => ?_
           cases a <;>
             simp [teardownFrom, InitState.toNat, initialProgState, List.count_append,
               List.count_replicate, List.count_cons, List.count_nil] <;>
             omega)
        | (simp [teardownFrom, teardownOrder, teardown, InitState.toNat, initialProgState]
           done)
  · cases slo
    case false =>
      by_cases hn : 0 < numSetLayouts info.bindings
      · simp [hn] at hfail ⊢
        · unfold C5Props
          refine ⟨?_, ?_, ?_, ?_, ?_, ?_, ?_, ?_, ?_, ?_, ?_, ?_, ?_, ?_⟩ <;>
            first
              | (refine List.perm_iff_count.mpr fun a => ?_
                 cases a <;>
                   simp [teardownFrom, InitState.toNat, initialProgState, List.count_append,
                     List.count_replicate, List.count_cons, List.count_nil] <;>
                   omega)
              | (simp [teardownFrom, teardownOrder, teardown, InitState.toNat, initialProgState]
                 done)
      · have hn0 : numSetLayouts info.bindings = 0 := by omega
        simp [hn0] at hfail ⊢
        exact constructMid_c5 devTs _ info.bindings 0 _ _ (by simp [initialProgState])
          (by simp) hfail
    case true =>
      simp at hfail ⊢
      exact constructMid_c5 devTs _ info.bindings (numSetLayouts info.bindings) _ _
        (by simp [initialProgState]) (by simp) hfail

/-- Witness for the amended C5 theorem: a pipeline-creation failure on a
validated program with one binding tears down exactly what was built. -/
theorem c5_staged_teardown_witness :
    C5Props (construct lim0 false goodInfo pipelineFailOracle) :=
  c5_staged_teardown_exact lim0 false goodInfo pipelineFailOracle (by decide) (by decide)

/-- C5 counterexample: the claim's destruction order — the exact reverse of
the stage order, which would destroy the descriptor pool before the pipeline
layout — differs from what the code does. When pipeline creation fails after
shader, set layout, pipeline layout and descriptor pool were created, the
code destroys the pipeline layout first and then the descriptor pool. -/
theorem c5_not_reverse_stage_order :
    (construct lim0 false goodInfo pipelineFailOracle).success = false ∧
    (construct lim0 false goodInfo pipelineFailOracle).destroyed =
      [GpuObj.layout, GpuObj.dsp, GpuObj.setLayout, GpuObj.shader] ∧
    (construct lim0 false goodInfo pipelineFailOracle).destroyed ≠
      claimedReverseStageOrder (construct lim0 false goodInfo pipelineFailOracle).created := by
  decide
